import Mathlib

/-!
Verification development for the slurm-proxy repository.

The definitions below are a shallow embedding of the Python sources under
`src/app/` (principally `task_submission.py`, `task_monitoring.py`,
`task_slurm_rest.py`, `task_notification.py` and `constants.py`).  Pure
functions become Lean functions; the MongoDB-backed registry becomes an
explicit list of records threaded through the operations; outbound calls to
the SLURM REST API, to the notifier transports and to SSH become explicit
environment parameters; Python exceptions become `Except`/explicit outcome
values.  Names follow the source.
-/

namespace SlurmProxy

/-! ## Constants (src/app/constants.py) -/

def BAD_SLURM_JOB_ID : Int := -1

def SLURM_TEST_JOB_ID : Int := 123

def SLURM_STATE_UNKNOWN : String := "UNKNOWN"

/-- The keys of the `SLURM_STATE` dict (`SLURM_STATES_ALLOWED = SLURM_STATE.keys()`);
the duplicated "PREEMPTED" literal in the Python dict collapses to one key. -/
def SLURM_STATE_KEYS : List String :=
  ["COMPLETED", "COMPLETING", "FAILED", "PENDING", "PREEMPTED", "RUNNING",
   "SUSPENDED", "STOPPED", "TIMEOUT", "CANCELLED", "NODE_FAIL", "BOOT_FAIL",
   "OUT_OF_MEMORY", "RESV_DEL_HOLD", "REQUEUE_FED", "REQUEUE_HOLD", "RESIZING",
   "REVOKED", "SIGNALING", "SPECIAL_EXIT", "STAGE_OUT", "DEADLINE"]

def SLURM_STATE_END_STATES : List String :=
  ["COMPLETED", "FAILED", "CANCELLED", "SUSPENDED", "NODE_FAIL", "TIMEOUT", "DEADLINE"]

def SLURM_REST_GENERIC_USERNAME : String := "generic"

/-- `int(os.environ.get("SLURM_REST_JWT_EXPIRATION_TIME", 10))` — default value. -/
def SLURM_REST_JWT_EXPIRATION_TIME : Int := 10

/-! ## Notification methods (src/app/task_notification.py) -/

/-- `class NotificationMethod(Enum)` with string values. -/
inductive NotificationMethod where
  | EMAIL
  | GMAIL
  | RABBITMQ
  | SLACK
  | TEST
deriving DecidableEq, Repr

def NotificationMethod.value : NotificationMethod → String
  | .EMAIL => "email"
  | .GMAIL => "gmail"
  | .RABBITMQ => "rabbitmq"
  | .SLACK => "slack"
  | .TEST => "test"

/-- A value stored in a notification `methods` list.  The catalog
(`TASK_METADATA`) holds `NotificationMethod` enum members; a task's custom
`notification.methods` (parsed JSON) holds plain strings. -/
inductive MethodVal where
  | ofEnum (m : NotificationMethod)
  | ofStr (s : String)
deriving DecidableEq, Repr

/-- Python `method == NotificationMethod.X.value`: an enum member never equals
its string value (plain `Enum`, not a `str` mixin), so only string-valued
entries can match a tag. -/
def MethodVal.pyEq (v : MethodVal) (tag : String) : Bool :=
  match v with
  | .ofStr s => s == tag
  | .ofEnum _ => false

/-- Python truthiness of a methods-list entry (`if not method`): the empty
string is falsy; enum members are truthy. -/
def MethodVal.pyFalsy (v : MethodVal) : Bool :=
  match v with
  | .ofStr s => s == ""
  | .ofEnum _ => false

/-- One per-method parameter dict (e.g. the catalog's `email`/`slack`/`rabbitmq`
bags).  Absent dict keys are `none`. -/
structure ParamBag where
  sender : Option String := none
  recipient : Option String := none
  subject : Option String := none
  body : Option String := none
  msg : Option String := none
  channel : Option String := none
  queue : Option String := none
  exchange : Option String := none
  routing_key : Option String := none
deriving DecidableEq, Repr

/-- Association-list lookup (Python dict read `d[k]` / `k in d`). -/
def lookupKey {α : Type} (l : List (String × α)) (k : String) : Option α :=
  (l.find? (fun p => p.1 == k)).map (fun p => p.2)

/-- Association-list write (Python dict write `d[k] = v`). -/
def setKey {α : Type} : List (String × α) → String → α → List (String × α)
  | [], k, v => [(k, v)]
  | (k0, v0) :: rest, k, v =>
      if k0 == k then (k, v) :: rest else (k0, v0) :: setKey rest k v

/-- The `notification` member of a `TASK_METADATA` entry: a methods list and a
params dict (whose values may be `None`, as in `"test": None`). -/
structure CatalogNotif where
  methods : List MethodVal
  params : List (String × Option ParamBag)
deriving DecidableEq, Repr

/-- One `TASK_METADATA` entry. -/
structure TaskMeta where
  cmd : Option String := none
  default_params : List String := []
  description : String := ""
  notification : CatalogNotif
deriving DecidableEq, Repr

abbrev Catalog := List (String × TaskMeta)

def lookupCatalog (cat : Catalog) (name : String) : Option TaskMeta :=
  lookupKey cat name

/-- The `TASK_METADATA` entry for `echo_hello_world`. -/
def echoHelloWorldMeta : TaskMeta :=
  { cmd := some "echo",
    default_params := [],
    description := "Prints a generic hello world! message",
    notification :=
      { methods := [.ofEnum .TEST, .ofEnum .EMAIL, .ofEnum .SLACK, .ofEnum .RABBITMQ],
        params :=
          [("test", none),
           ("email", some { sender := some "areynolds@altius.org",
                            recipient := some "areynolds@altius.org",
                            subject := some "Hello World",
                            body := some "Hello World!" }),
           ("slack", some { msg := some "Hello World!", channel := some "general" }),
           ("rabbitmq", some { queue := some "hello_world_queue",
                               exchange := some "",
                               routing_key := some "hello_world",
                               body := some "Hello World!" })] } }

/-- The `TASK_METADATA` entry for `generic_task`. -/
def genericTaskMeta : TaskMeta :=
  { description := "A generic task that can be used to run any command.",
    notification := { methods := [.ofEnum .TEST], params := [("test", none)] } }

/-- `TASK_METADATA` from src/app/constants.py. -/
def TASK_METADATA : Catalog :=
  [("echo_hello_world", echoHelloWorldMeta), ("generic_task", genericTaskMeta)]

/-! ## Task model (the JSON body accepted by POST /submit) -/

structure Dirs where
  parent : String
  input : String
  output : String
  error : String
deriving DecidableEq, Repr

structure SlurmOpts where
  partition : String
  cpus_per_task : Int
  mem : Int
  time : Int
  nodes : Int
  ntasks_per_node : Int
  output : String
  error : String
  job_name : String
  environment : Option String := none
deriving DecidableEq, Repr

/-- A task-level `notification` override: methods are plain strings, params a
dict of per-method bags. -/
structure TaskNotif where
  methods : List String := []
  params : List (String × ParamBag) := []
deriving DecidableEq, Repr

structure Task where
  name : String
  username : String
  cwd : String
  uuid : String
  cmd : Option String := none
  params : List String := []
  dirs : Dirs
  slurm : SlurmOpts
  notification : Option TaskNotif := none
deriving DecidableEq, Repr

/-- The top-level keys present in the JSON object a parsed `Task` came from. -/
def Task.keys (t : Task) : List String :=
  ["name", "username", "cwd", "uuid", "slurm", "dirs", "params"]
    ++ (if t.cmd.isSome then ["cmd"] else [])
    ++ (if t.notification.isSome then ["notification"] else [])

/-- `is_task_valid` (src/app/task_submission.py): checks only that the required
top-level keys are present. -/
def is_task_valid (taskKeys : List String) : Bool :=
  (["name", "username", "cwd", "uuid", "slurm", "dirs"]).all
    (fun k => taskKeys.contains k)

/-! ## Command construction (src/app/task_submission.py) -/

/-- `define_task_cmd`: resolve the command for a task from the catalog; `None`
when the task name is unknown or no command is available.  A falsy (empty)
explicit command falls back to the catalog command, as in Python. -/
def define_task_cmd (cat : Catalog) (task_name : String) (task_cmd : Option String)
    (additional_task_params : List String) : Option String :=
  match lookupCatalog cat task_name with
  | none => none
  | some md =>
      let cmd0 : Option String :=
        match task_cmd with
        | some c => if c == "" then md.cmd else some c
        | none => md.cmd
      match cmd0 with
      | none => none
      | some c =>
          if c == "" then none
          else some (String.intercalate " " (c :: (md.default_params ++ additional_task_params)))

/-- Python `f"...{x}..."` on an optional value: `None` prints as "None". -/
def pyStr : Option String → String
  | none => "None"
  | some s => s

/-! ## SLURM REST submit payloads (src/app/task_submission.py) -/

structure JobPayload where
  script : String
  environment : List String
  current_working_directory : String
  name : String
  partition : String
  cpus_per_task : Int
  memory_per_cpu : Int
  time_limit : Int
  standard_output : String
  standard_error : String
  dependency : Option String := none
deriving DecidableEq, Repr

structure SubmitPayload where
  username : String
  job : JobPayload
deriving DecidableEq, Repr

/-- `get_preliminary_slurm_rest_payload_for_task`: the Phase A (directory
preparation) payload.  The `except KeyError` branch is unreachable for a fully
parsed `Task`, so the result is always `some`. -/
def get_preliminary_slurm_rest_payload_for_task (task : Task) : Option SubmitPayload :=
  let mkdir_cmd := String.intercalate " ; "
    ["mkdir -p " ++ task.dirs.parent, "mkdir -p " ++ task.dirs.input,
     "mkdir -p " ++ task.dirs.output, "mkdir -p " ++ task.dirs.error]
  some
    { username := task.username,
      job :=
        { script := "#!/bin/bash\nsrun /bin/bash -c \'" ++ mkdir_cmd ++ ";\'",
          environment := ["PATH=/bin/:/usr/bin/:/sbin/"],
          current_working_directory := task.cwd,
          name := "hpc-proxy-preliminary-" ++ task.name ++ "-" ++ task.uuid ++ "-preliminary",
          partition := task.slurm.partition,
          cpus_per_task := 1,
          memory_per_cpu := 100,
          time_limit := 100,
          standard_output := "/dev/null",
          standard_error := "/dev/null",
          dependency := none } }

/-- `get_main_slurm_rest_payload_for_task`: the Phase B (main job) payload.
Note that the result of `define_task_cmd` is interpolated into the script
without a `None` check (unlike the SSH path), so an unresolved command yields
the literal script text `srun /bin/bash -c 'None;'`.  The `except KeyError`
branch is unreachable for a fully parsed `Task`. -/
def get_main_slurm_rest_payload_for_task (cat : Catalog) (task : Task)
    (preliminary_job_id : Int) : Option SubmitPayload :=
  let task_cmd := define_task_cmd cat task.name task.cmd task.params
  some
    { username := task.username,
      job :=
        { script := "#!/bin/bash\nsrun /bin/bash -c \'" ++ pyStr task_cmd ++ ";\'",
          environment := [task.slurm.environment.getD "PATH=/bin/:/usr/bin/:/sbin/"],
          current_working_directory := task.cwd,
          name := "hpc-proxy-" ++ task.name ++ "-" ++ task.uuid ++ "-main",
          partition := task.slurm.partition,
          cpus_per_task := task.slurm.cpus_per_task,
          memory_per_cpu := task.slurm.mem,
          time_limit := task.slurm.time,
          standard_output := task.dirs.output ++ "/" ++ task.slurm.output,
          standard_error := task.dirs.error ++ "/" ++ task.slurm.error,
          dependency := some ("afterok:" ++ toString preliminary_job_id) } }

/-! ## Registry and external environment -/

/-- One monitor-database row (`MonitorJobSummary.to_dict`, src/app/
task_metadata_monitor_job_summary.py); `created_at` is an abstract timestamp. -/
structure JobRecord where
  slurm_username : String
  slurm_job_id : Int
  slurm_job_state : String
  task : Task
  created_at : Int := 0
deriving DecidableEq, Repr

abbrev Registry := List JobRecord

/-- The in-flight object built by the Submitter before the registry insert
(src/app/task_metadata_monitor_job_summary.py). -/
structure MonitorJobSummary where
  slurm_username : String
  slurm_job_id : Int
  slurm_job_state : String
  task : Task
deriving DecidableEq, Repr

/-- Result of one `SlurmJobSummary` query (src/app/
task_metadata_slurm_job_summary.py). -/
structure SlurmJobSummary where
  username : String
  job_id : Int
  job_state : String
deriving DecidableEq, Repr

/-- Parsed body of one POST `job/submit` response: the HTTP status and
`response["response"].get("job_id", BAD_SLURM_JOB_ID)` (absent → `none`). -/
structure SubmitResp where
  status_code : Int
  job_id : Option Int := none
deriving DecidableEq, Repr

/-- One entry of a slurmdb `jobs` response: `state.current[0]` and `user`. -/
structure JobInstance where
  state_current0 : String
  user : String
deriving DecidableEq, Repr

/-- Parsed body of one GET slurmdb `job/<id>/` response. -/
structure JobsResp where
  status_code : Int
  jobs : List JobInstance
deriving DecidableEq, Repr

/-- The external world: the SLURM REST API responses, the clock, the polling
window, the notification hook and the SSH `scancel` exit codes. -/
structure Env where
  submit : SubmitPayload → SubmitResp
  job_lookup : Int → String → Option JobsResp
  now : Int
  maxAge : Int
  dispatch : Int → String → String → Except String Bool
  scancel_exit : Int → Int

/-! ## Live job state lookup (src/app/task_monitoring.py) -/

/-- `get_current_slurm_job_metadata_by_slurm_job_id_via_rest`.  `none` models a
falsy/non-200/empty-jobs response.  For `SLURM_TEST_JOB_ID` the Python returns
the raw `SLURM_TEST_JOB_STATUS` dict; we return the summary carrying its
`state`/`user` fields. -/
def get_current_slurm_job_metadata_by_slurm_job_id_via_rest (env : Env)
    (slurm_job_id : Int) (slurm_username : String) : Option SlurmJobSummary :=
  if slurm_job_id == 0 then none
  else
    let slurm_username :=
      if slurm_username == "" then SLURM_REST_GENERIC_USERNAME else slurm_username
    if slurm_job_id == SLURM_TEST_JOB_ID then
      some { username := "username", job_id := SLURM_TEST_JOB_ID, job_state := "COMPLETED" }
    else
      match env.job_lookup slurm_job_id slurm_username with
      | none => none
      | some resp =>
          if resp.status_code ≠ 200 then none
          else
            match resp.jobs with
            | [] => none
            | inst :: _ =>
                let result : SlurmJobSummary :=
                  { username := slurm_username, job_id := slurm_job_id,
                    job_state := SLURM_STATE_UNKNOWN }
                -- `set_job_state` writes only states in `SLURM_STATE.keys()`;
                -- writing UNKNOWN is a no-op on an already-UNKNOWN summary
                let result :=
                  if SLURM_STATE_KEYS.contains inst.state_current0 then
                    { result with job_state := inst.state_current0 }
                  else result
                -- ownership mismatch: keep SLURM's reported user (warning only)
                if inst.user ≠ slurm_username then
                  some { result with
                         username := if inst.user == "" then SLURM_REST_GENERIC_USERNAME
                                     else inst.user }
                else some result

/-! ## Registry CRUD (src/app/task_monitoring.py) -/

/-- `add_job_to_monitor_db`.  When the state to store is UNKNOWN the code
re-reads the live state and subscripts the returned `SlurmJobSummary` object
with `["state"]`, a `TypeError` for every id except `SLURM_TEST_JOB_ID`
(whose shortcut returns a raw dict).  The insert is skipped (but `True` still
returned) when a row with the same `slurm_job_id` or `task.uuid` exists. -/
def add_job_to_monitor_db (env : Env) (registry : Registry) (slurm_job_id : Int)
    (slurm_job_state : String) (slurm_job_task_metadata : Task)
    (slurm_username : String) : Except String (Bool × Registry) :=
  let resolved : Except String String :=
    if slurm_job_state == SLURM_STATE_UNKNOWN then
      match get_current_slurm_job_metadata_by_slurm_job_id_via_rest env
          slurm_job_id slurm_username with
      | some _ =>
          if slurm_job_id == SLURM_TEST_JOB_ID then Except.ok "COMPLETED"
          else Except.error "TypeError: SlurmJobSummary object is not subscriptable"
      | none => Except.ok slurm_job_state
    else Except.ok slurm_job_state
  match resolved with
  | .error e => .error e
  | .ok st =>
      let record : JobRecord :=
        { slurm_username := slurm_username, slurm_job_id := slurm_job_id,
          slurm_job_state := st, task := slurm_job_task_metadata,
          created_at := env.now }
      if (registry.find? (fun r => r.slurm_job_id == slurm_job_id)).isNone
          ∧ (registry.find?
              (fun r => r.task.uuid == slurm_job_task_metadata.uuid)).isNone then
        .ok (true, registry ++ [record])
      else .ok (true, registry)

/-- `monitor_new_slurm_job`: read the live state for the freshly submitted job
(failure → `False`, no registry write), store the job with that state, and
fire the state-change hook when the live state is already terminal. -/
def monitor_new_slurm_job (env : Env) (registry : Registry)
    (job : MonitorJobSummary) : Except String (Bool × Registry) :=
  match get_current_slurm_job_metadata_by_slurm_job_id_via_rest env
      job.slurm_job_id job.slurm_username with
  | none => .ok (false, registry)
  | some md =>
      -- Python: `md.get_job_state() if md or ... else UNKNOWN`; `md` is truthy
      -- here, so the conditional always yields the looked-up state
      let slurm_job_state := md.job_state
      match add_job_to_monitor_db env registry job.slurm_job_id slurm_job_state
          job.task job.slurm_username with
      | .error e => .error e
      | .ok (result, registry') =>
          if SLURM_STATE_END_STATES.contains slurm_job_state then
            match env.dispatch job.slurm_job_id SLURM_STATE_UNKNOWN slurm_job_state with
            | .error e => .error e
            | .ok _ => .ok (result, registry')
          else .ok (result, registry')

/-- Modelled from the spec: `get_job_metadata_from_monitor_db_by_query` is
imported by `submit_slurm_job_via_rest` from `app.task_monitoring` but is
absent from the source tree.  Per the spec (§4.3 pre-flight validation, the
de-duplication point), it returns the registry record whose `task.uuid`
matches the query, if any. -/
def get_job_metadata_from_monitor_db_by_query (registry : Registry)
    (task_uuid : String) : Option JobRecord :=
  registry.find? (fun r => r.task.uuid == task_uuid)

/-! ## Two-phase REST submission (src/app/task_submission.py) -/

/-- Outcome of `submit_slurm_job_via_rest`, together with the trace of
payloads handed to `submit_job_via_params` (each entry is one POST to the
SLURM `job/submit` endpoint). -/
structure SubmitRunResult where
  job_id : Int
  msg : String
  calls : List SubmitPayload
deriving DecidableEq, Repr

/-- `submit_slurm_job_via_rest`: duplicate-uuid guard, Phase A submit, job-id
extraction, Phase B payload (with `afterok` dependency) and submit. -/
def submit_slurm_job_via_rest (env : Env) (cat : Catalog) (registry : Registry)
    (task : Task) : SubmitRunResult :=
  match get_job_metadata_from_monitor_db_by_query registry task.uuid with
  | some _ =>
      { job_id := BAD_SLURM_JOB_ID,
        msg := "Task UUID " ++ task.uuid ++ " already exists in monitor database",
        calls := [] }
  | none =>
      match get_preliminary_slurm_rest_payload_for_task task with
      | none =>
          { job_id := BAD_SLURM_JOB_ID,
            msg := "Failed to define preliminary REST payload for submission; validate task parameters",
            calls := [] }
      | some preliminary_payload =>
          let preliminary_response := env.submit preliminary_payload
          if preliminary_response.status_code ≠ 200 then
            { job_id := BAD_SLURM_JOB_ID,
              msg := "Preliminary submit step failed",
              calls := [preliminary_payload] }
          else
            let preliminary_job_id := preliminary_response.job_id.getD BAD_SLURM_JOB_ID
            if preliminary_job_id == BAD_SLURM_JOB_ID then
              { job_id := BAD_SLURM_JOB_ID,
                msg := "Failed to create preliminary job",
                calls := [preliminary_payload] }
            else
              match get_main_slurm_rest_payload_for_task cat task preliminary_job_id with
              | none =>
                  { job_id := BAD_SLURM_JOB_ID,
                    msg := "Failed to define main REST payload for submission; validate task parameters",
                    calls := [preliminary_payload] }
              | some main_payload =>
                  let main_response := env.submit main_payload
                  if main_response.status_code ≠ 200 then
                    { job_id := BAD_SLURM_JOB_ID,
                      msg := "Main submit step failed",
                      calls := [preliminary_payload, main_payload] }
                  else
                    let main_job_id := main_response.job_id.getD BAD_SLURM_JOB_ID
                    if main_job_id == BAD_SLURM_JOB_ID then
                      { job_id := BAD_SLURM_JOB_ID,
                        msg := "Failed to create main job",
                        calls := [preliminary_payload, main_payload] }
                    else
                      { job_id := main_job_id,
                        msg := "Successfully submitted SLURM job via REST",
                        calls := [preliminary_payload, main_payload] }

/-! ## The POST /submit handler (src/app/task_submission.py, `post`) -/

inductive RespBody where
  | err (msg : String)
  | okSubmit (uuid : String) (slurm_job_id : Int)
deriving DecidableEq, Repr

structure PostResult where
  status : Int
  body : RespBody
  registry : Registry
  calls : List SubmitPayload
deriving DecidableEq, Repr

/-- `post` (task_submission blueprint), from task extraction onward: validate,
submit via REST, then register the job for monitoring.  An uncaught Python
exception in the monitoring step surfaces as `Except.error`. -/
def post_submit (env : Env) (cat : Catalog) (registry : Registry) (task : Task) :
    Except String PostResult :=
  if ¬ is_task_valid task.keys then
    .ok { status := 400, body := .err "Invalid task format", registry := registry,
          calls := [] }
  else
    let sr := submit_slurm_job_via_rest env cat registry task
    if sr.job_id == BAD_SLURM_JOB_ID then
      .ok { status := 400, body := .err ("Failed to submit task | " ++ sr.msg),
            registry := registry, calls := sr.calls }
    else
      let job : MonitorJobSummary :=
        { slurm_username := task.username, slurm_job_id := sr.job_id,
          slurm_job_state := SLURM_STATE_UNKNOWN, task := task }
      match monitor_new_slurm_job env registry job with
      | .error e => .error e
      | .ok (true, registry') =>
          .ok { status := 200, body := .okSubmit task.uuid sr.job_id,
                registry := registry', calls := sr.calls }
      | .ok (false, registry') =>
          .ok { status := 400, body := .err "Failed to monitor job",
                registry := registry', calls := sr.calls }

/-! ## The Poller (src/app/task_monitoring.py, `poll_slurm_jobs`) -/

/-- What one loop iteration of `poll_slurm_jobs` does with one record. -/
inductive StepOut where
  | skip
  | unchanged
  | updated (new_state : String)
  | crashed
deriving DecidableEq, Repr

/-- One iteration of the `poll_slurm_jobs` loop body: records outside the
`created_at` window are not scanned; terminal records are `continue`d before
any lookup; otherwise the live state is read and a change is written back,
with the state-change hook firing first on a transition into a terminal
state (`crashed` models an exception escaping that hook). -/
def pollStep (env : Env) (r : JobRecord) : StepOut :=
  if ¬ (env.now - env.maxAge ≤ r.created_at ∧ r.created_at ≤ env.now) then .skip
  else if SLURM_STATE_END_STATES.contains r.slurm_job_state then .skip
  else
    match get_current_slurm_job_metadata_by_slurm_job_id_via_rest env
        r.slurm_job_id r.task.username with
    | none => .unchanged
    | some md =>
        if r.slurm_job_state == md.job_state then .unchanged
        else
          let new_state :=
            if SLURM_STATE_KEYS.contains md.job_state then md.job_state
            else SLURM_STATE_UNKNOWN
          if SLURM_STATE_END_STATES.contains new_state then
            match env.dispatch r.slurm_job_id r.slurm_job_state new_state with
            | .error _ => .crashed
            | .ok _ => .updated new_state
          else .updated new_state

/-- Result of one Poller tick: the registry afterwards, the ids for which a
live REST lookup was issued, and whether the tick aborted on an exception. -/
structure PollResult where
  registry : Registry
  lookups : List Int
  crashed : Bool
deriving DecidableEq, Repr

/-- `poll_slurm_jobs` over the scanned records, in order.  An exception
escaping the state-change hook aborts the loop: the current record keeps its
old state and the remaining records are not processed (their rows are
untouched). -/
def pollGo (env : Env) : Registry → PollResult
  | [] => { registry := [], lookups := [], crashed := false }
  | r :: rest =>
      match pollStep env r with
      | .skip =>
          let p := pollGo env rest
          { registry := r :: p.registry, lookups := p.lookups, crashed := p.crashed }
      | .unchanged =>
          let p := pollGo env rest
          { registry := r :: p.registry, lookups := r.slurm_job_id :: p.lookups,
            crashed := p.crashed }
      | .updated s =>
          let p := pollGo env rest
          { registry := { r with slurm_job_state := s } :: p.registry,
            lookups := r.slurm_job_id :: p.lookups, crashed := p.crashed }
      | .crashed =>
          { registry := r :: rest, lookups := [r.slurm_job_id], crashed := true }

def poll_slurm_jobs (env : Env) (registry : Registry) : PollResult :=
  pollGo env registry

/-- `n` successive Poller ticks, the tick at index `k` running in `envs k`. -/
def poll_iter (envs : Nat → Env) : Nat → Registry → Registry
  | 0, rs => rs
  | n + 1, rs => (poll_slurm_jobs (envs n) (poll_iter envs n rs)).registry

/-! ## JWT minting (src/app/task_slurm_rest.py) -/

structure JwtClaims where
  exp : Int
  iat : Int
  sun : String
deriving DecidableEq, Repr

/-- The compact JWS handed back by `JWT().encode(message, signing_key,
alg="HS256")`: the algorithm, the signing-key material (the `k` member of the
oct JWK, i.e. the base64 shared secret), and the claims. -/
structure CompactJws where
  alg : String
  key : String
  claims : JwtClaims
deriving DecidableEq, Repr

/-- `get_slurm_rest_jwt_token_for_username` under a frozen clock `now`:
empty/missing username is coerced to the generic sentinel; a missing secret
yields `None`; otherwise an HS256 token with claims
`exp = now + ttl, iat = now, sun = username`. -/
def get_slurm_rest_jwt_token_for_username (now ttl : Int) (priv_key : Option String)
    (username : String) : Option CompactJws :=
  let username :=
    if username == "" then SLURM_REST_GENERIC_USERNAME else username
  match priv_key with
  | none => none
  | some k =>
      some { alg := "HS256", key := k,
             claims := { exp := now + ttl, iat := now, sun := username } }

/-! ## Notification dispatch (src/app/task_notification.py and
`process_job_state_change` in src/app/task_monitoring.py) -/

/-- Which notifier transports raise when invoked (keyed by callback tag). -/
structure NotifierEnv where
  raises : String → Bool

/-- `NotificationCallbackFactory.create_callback_for_method`: the five string
tags map to callbacks; everything else — including the catalog's enum
members, which never equal their string values — raises `ValueError`. -/
def create_callback_for_method (m : MethodVal) : Except String String :=
  if m.pyFalsy then .error "Must specify notification method!"
  else if m.pyEq "email" then .ok "email"
  else if m.pyEq "gmail" then .ok "gmail"
  else if m.pyEq "rabbitmq" then .ok "rabbitmq"
  else if m.pyEq "slack" then .ok "slack"
  else if m.pyEq "test" then .ok "test"
  else .error "Unknown notification method!"

/-- Outcome of the per-method loop in `process_job_state_change`: `exn` is an
exception escaping the loop, `returned` the boolean result, `invoked` the
callback tags whose `notify` was actually called, in order. -/
structure DispatchResult where
  exn : Option String := none
  returned : Bool := true
  invoked : List String := []
deriving DecidableEq, Repr

/-- The per-method loop of `process_job_state_change`.  Fidelity notes, from
the source: the EMAIL/GMAIL parameter reads (`params["email"]["sender"]` …)
happen outside the `try`, so a missing bag is an uncaught `KeyError`/
`TypeError`; the SLACK and RABBITMQ parameter reads happen inside the `try`,
so a missing bag is swallowed like a notifier failure; the TEST invocation has
no `try` at all, so a raising TEST notifier escapes the loop; the trailing
`else: return False` is dead code because the factory raises first for any
method that matches no tag. -/
def dispatchLoop (env : NotifierEnv) (params : List (String × Option ParamBag)) :
    List MethodVal → DispatchResult
  | [] => { exn := none, returned := true, invoked := [] }
  | m :: rest =>
      match create_callback_for_method m with
      | .error e => { exn := some e, returned := true, invoked := [] }
      | .ok _callback =>
          if m.pyEq "email" || m.pyEq "gmail" then
            match lookupKey params "email" with
            | none => { exn := some "KeyError: email", returned := true, invoked := [] }
            | some none =>
                { exn := some "TypeError: NoneType object is not subscriptable",
                  returned := true, invoked := [] }
            | some (some bag) =>
                match bag.sender, bag.recipient, bag.subject with
                | some _, some _, some _ =>
                    -- notify runs inside try/except: a raise is logged only
                    let tag := if m.pyEq "gmail" then "gmail" else "email"
                    let d := dispatchLoop env params rest
                    { d with invoked := tag :: d.invoked }
                | _, _, _ =>
                    { exn := some "KeyError: email parameter", returned := true,
                      invoked := [] }
          else if m.pyEq "slack" then
            -- the parameter reads are inside the try/except, so a missing bag
            -- is caught exactly like a raising notifier
            match lookupKey params "slack" with
            | some (some bag) =>
                match bag.channel with
                | some _ =>
                    let d := dispatchLoop env params rest
                    { d with invoked := "slack" :: d.invoked }
                | none => dispatchLoop env params rest
            | _ => dispatchLoop env params rest
          else if m.pyEq "rabbitmq" then
            match lookupKey params "rabbitmq" with
            | some (some bag) =>
                match bag.queue, bag.exchange, bag.routing_key with
                | some _, some _, some _ =>
                    let d := dispatchLoop env params rest
                    { d with invoked := "rabbitmq" :: d.invoked }
                | _, _, _ => dispatchLoop env params rest
            | _ => dispatchLoop env params rest
          else if m.pyEq "test" then
            -- no try/except around the TEST notify: a raise escapes the loop
            if env.raises "test" then
              { exn := some "Exception raised by the TEST notifier",
                returned := true, invoked := ["test"] }
            else
              let d := dispatchLoop env params rest
              { d with invoked := "test" :: d.invoked }
          else
            -- unknown/unimplemented method: log and return False (dead code)
            { exn := none, returned := false, invoked := [] }

/-- The merge of a task's custom notification data into the catalog entry in
`process_job_state_change`.  `task_notification_methods` and
`task_notification_params` are aliases of the `TASK_METADATA` entry's own
list and dict, so the appends and key writes land in the shared catalog
entry; only the bags' values are deep-copied. -/
def mergeStep (custom : TaskNotif) (acc : CatalogNotif) (m : String) : CatalogNotif :=
  match lookupKey custom.params m with
  | none => acc
  | some bag =>
      if acc.methods.contains (MethodVal.ofStr m) then acc
      else
        { methods := acc.methods ++ [MethodVal.ofStr m],
          params := setKey acc.params m (some bag) }

def merge_task_notification (cat : CatalogNotif) (custom : TaskNotif) : CatalogNotif :=
  custom.methods.foldl (mergeStep custom) cat

/-- Result of `process_job_state_change`: the returned value or escaped
exception, the `TASK_METADATA` object after the call (the merge mutates it in
place), and the invoked callback tags. -/
structure ProcessOut where
  outcome : Except String Bool
  catalog : Catalog
  invoked : List String

/-- `process_job_state_change`: on a transition into a terminal state, find
the record, merge its custom notification data into the catalog entry and
dispatch each method of the merged list. -/
def process_job_state_change (env : NotifierEnv) (cat : Catalog)
    (registry : Registry) (slurm_job_id : Int) (_old_slurm_job_state : String)
    (new_slurm_job_state : String) : ProcessOut :=
  if ¬ SLURM_STATE_END_STATES.contains new_slurm_job_state then
    { outcome := .ok true, catalog := cat, invoked := [] }
  else
    match registry.find? (fun r => r.slurm_job_id == slurm_job_id) with
    | none => { outcome := .ok true, catalog := cat, invoked := [] }
    | some record =>
        match lookupCatalog cat record.task.name with
        | none =>
            { outcome := .error ("KeyError: " ++ record.task.name),
              catalog := cat, invoked := [] }
        | some task_md =>
            let merged :=
              match record.task.notification with
              | none => task_md.notification
              | some custom => merge_task_notification task_md.notification custom
            -- the in-place append/assignment above is visible through the
            -- shared TASK_METADATA entry
            let cat' := setKey cat record.task.name { task_md with notification := merged }
            let d := dispatchLoop env merged.params merged.methods
            { outcome := match d.exn with
                         | some e => .error e
                         | none => .ok d.returned,
              catalog := cat', invoked := d.invoked }

/-! ## DELETE /monitor/slurm_job_id/<id> (src/app/task_monitoring.py) -/

/-- `get_job_metadata_from_monitor_db`: when `find_one` returns no row the
function subscripts `None` (`result.get("_id")` on `None`), an uncaught
`AttributeError`; the `return None` path is reachable only on a database
error, which is outside this model. -/
def get_job_metadata_from_monitor_db (registry : Registry) (slurm_job_id : Int) :
    Except String (Option JobRecord) :=
  match registry.find? (fun r => r.slurm_job_id == slurm_job_id) with
  | some r => .ok (some r)
  | none => .error "AttributeError: NoneType object has no attribute get"

inductive DeleteBody where
  | err (msg : String)
  | deleted (record : Option JobRecord)
deriving DecidableEq, Repr

structure DeleteResult where
  status : Int
  body : DeleteBody
  registry : Registry
  ssh_cmds : List String
deriving DecidableEq, Repr

/-- `delete_by_slurm_job_id_via_ssh`: look the job up, `scancel` it over SSH,
then remove and return the registry row. -/
def delete_by_slurm_job_id_via_ssh (env : Env) (registry : Registry)
    (slurm_job_id : Int) : Except String DeleteResult :=
  match get_job_metadata_from_monitor_db registry slurm_job_id with
  | .error e => .error e
  | .ok (some _) =>
      let cmd := "scancel " ++ toString slurm_job_id
      if env.scancel_exit slurm_job_id ≠ 0 then
        .ok { status := 400,
              body := .err "Job could not be deleted from SLURM scheduler",
              registry := registry, ssh_cmds := [cmd] }
      else
        let deleted_job := registry.find? (fun r => r.slurm_job_id == slurm_job_id)
        .ok { status := 200, body := .deleted deleted_job,
              registry := registry.eraseP (fun r => r.slurm_job_id == slurm_job_id),
              ssh_cmds := [cmd] }
  | .ok none =>
      .ok { status := 404, body := .err "Job not found in monitor database",
            registry := registry, ssh_cmds := [] }

/-! ## POST /slurm/job/submit/ (src/app/task_slurm_rest.py, `submit_job`) -/

structure HttpRequest where
  is_json : Bool
  json_body : List (String × String)
deriving DecidableEq, Repr

inductive PyExn where
  | unboundLocalError (name : String)
  | keyError (key : String)
deriving DecidableEq, Repr

inductive SubmitJobOutcome where
  | runQuery (username : String)
  | exn (e : PyExn)
deriving DecidableEq, Repr

/-- `submit_job`: `job` is assigned only inside `if request.is_json:`, and
`username = job["username"]` follows unconditionally — a non-JSON body hits
an `UnboundLocalError` and a JSON body without a "username" key a `KeyError`;
neither is caught, so no structured 400 is produced. -/
def submit_job (req : HttpRequest) : SubmitJobOutcome :=
  if req.is_json then
    let job := req.json_body
    match lookupKey job "username" with
    | none => .exn (.keyError "username")
    | some username =>
        let username :=
          if username == "" then SLURM_REST_GENERIC_USERNAME else username
        .runQuery username
  else
    .exn (.unboundLocalError "job")

/-! ## Concrete scenario inputs (spec §8, scenario 1) -/

/-- The literal task of spec scenario 1 ("Happy path submit"). -/
def taskScenario : Task :=
  { name := "echo_hello_world", username := "alice", cwd := "/h/a", uuid := "u1",
    cmd := none, params := [],
    dirs := { parent := "/h/a/p", input := "/h/a/i", output := "/h/a/o", error := "/h/a/e" },
    slurm := { partition := "q", cpus_per_task := 1, mem := 100, time := 60, nodes := 1,
               ntasks_per_node := 1, output := "o.txt", error := "e.txt", job_name := "j" } }

/-- A SLURM backend that answers `job_id 1001` to the Phase A submit (the
payload without a dependency), `job_id 1002` to the Phase B submit, and
reports job 1002 as PENDING, owned by alice. -/
def envScenario : Env :=
  { submit := fun p =>
      if p.job.dependency.isNone then { status_code := 200, job_id := some 1001 }
      else { status_code := 200, job_id := some 1002 },
    job_lookup := fun id u =>
      if id == 1002 && u == "alice" then
        some { status_code := 200, jobs := [{ state_current0 := "PENDING", user := "alice" }] }
      else none,
    now := 0, maxAge := 100,
    dispatch := fun _ _ _ => .ok true,
    scancel_exit := fun _ => 0 }

/-! ## Helper lemmas -/

/-- The preliminary payload builder never fails for a parsed task. -/
theorem prelim_payload_isSome (task : Task) :
    ∃ pp, get_preliminary_slurm_rest_payload_for_task task = some pp :=
  ⟨_, rfl⟩

/-- The main payload builder never fails for a parsed task, and always sets
the `afterok` dependency and the `hpc-proxy-…-main` job name. -/
theorem main_payload_fields (cat : Catalog) (task : Task) (pid : Int) :
    ∃ mp, get_main_slurm_rest_payload_for_task cat task pid = some mp
      ∧ mp.job.dependency = some ("afterok:" ++ toString pid)
      ∧ mp.job.name = "hpc-proxy-" ++ task.name ++ "-" ++ task.uuid ++ "-main" :=
  ⟨_, rfl, rfl, rfl⟩

/-- Every parsed `Task` passes `is_task_valid` (the checked keys are always
present after parsing). -/
theorem is_task_valid_keys (task : Task) : is_task_valid task.keys = true := rfl

/-! ## C6 -/

/-- C6: for every username `u` and mint time `t`, the minted SLURM JWT is an
HS256 compact JWS over the shared secret whose claims are exactly
`sun = u` (or "generic" when `u` is empty), `iat = t` and `exp = t + TTL`,
with the TTL defaulting to 10 seconds. -/
theorem jwt_claims_exact (u : String) (t : Int) (k : String) :
    get_slurm_rest_jwt_token_for_username t SLURM_REST_JWT_EXPIRATION_TIME (some k) u
        = some { alg := "HS256", key := k,
                 claims := { exp := t + 10, iat := t,
                             sun := if u == "" then "generic" else u } }
      ∧ SLURM_REST_JWT_EXPIRATION_TIME = 10 := by
  refine ⟨?_, rfl⟩
  unfold get_slurm_rest_jwt_token_for_username SLURM_REST_GENERIC_USERNAME
    SLURM_REST_JWT_EXPIRATION_TIME
  rfl

/-! ## C10 -/

/-- C10: a POST to /slurm/job/submit/ whose body is not JSON leaves `job`
unassigned and hits an `UnboundLocalError`; a JSON body without a "username"
key hits a `KeyError`; neither returns a structured 400. -/
theorem submit_job_unguarded (req : HttpRequest) :
    (req.is_json = false → submit_job req = .exn (.unboundLocalError "job"))
    ∧ (req.is_json = true → lookupKey req.json_body "username" = none →
        submit_job req = .exn (.keyError "username")) := by
  constructor
  · intro h
    simp [submit_job, h]
  · intro h h2
    simp [submit_job, h, h2]

theorem submit_job_unguarded_witness :
    submit_job { is_json := false, json_body := [("username", "alice")] }
        = .exn (.unboundLocalError "job")
    ∧ submit_job { is_json := true, json_body := [("job", "x")] }
        = .exn (.keyError "username") :=
  ⟨(submit_job_unguarded _).1 rfl, (submit_job_unguarded _).2 rfl rfl⟩

/-! ## C8 -/

/-- The registry row of spec scenario 5 before the delete. -/
def recScenario : JobRecord :=
  { slurm_username := "alice", slurm_job_id := 1002, slurm_job_state := "RUNNING",
    task := taskScenario, created_at := 0 }

/-- C8 (code bug): a DELETE for a job id absent from the registry does not
return 404 — `get_job_metadata_from_monitor_db` subscripts the `None` that
`find_one` returned and raises `AttributeError` (an unhandled 500); no
`scancel` is issued.  When the record exists and `scancel` exits 0, the row
is removed and returned with 200, as the claim states. -/
theorem delete_missing_job_crashes :
    delete_by_slurm_job_id_via_ssh envScenario [] 1002
        = .error "AttributeError: NoneType object has no attribute get"
    ∧ delete_by_slurm_job_id_via_ssh envScenario [recScenario] 1002
        = .ok { status := 200, body := .deleted (some recScenario), registry := [],
                ssh_cmds := ["scancel 1002"] } := by
  exact ⟨rfl, rfl⟩

/-! ## C4 -/

/-- A task whose `name` is not a key of `TASK_METADATA`, all required keys
present. -/
def taskUnknownName : Task :=
  { taskScenario with name := "no_such_task", uuid := "u4" }

/-- C4 (code bug): a task with an unknown `task.name` passes `is_task_valid`
(which checks key presence only), and `submit_slurm_job_via_rest` issues BOTH
REST submits for it: Phase A goes out before any catalog check, and the main
payload interpolates the unresolved command as the literal string "None", so
Phase B goes out too and the submission is accepted — contradicting the
claim's 400-before-any-REST-call. -/
theorem unknown_task_contacts_slurm :
    is_task_valid taskUnknownName.keys = true
    ∧ (submit_slurm_job_via_rest envScenario TASK_METADATA [] taskUnknownName).job_id = 1002
    ∧ (submit_slurm_job_via_rest envScenario TASK_METADATA [] taskUnknownName).calls.length = 2
    ∧ ((submit_slurm_job_via_rest envScenario TASK_METADATA [] taskUnknownName).calls.drop 1).map
          (fun p => p.job.script)
        = ["#!/bin/bash\nsrun /bin/bash -c \'None;\'"] := by
  exact ⟨rfl, rfl, rfl, rfl⟩

/-! ## C1 -/

/-- C1: for every accepted submission, the Phase B payload handed to the SLURM
REST submit operation carries `dependency = "afterok:<preliminary_job_id>"`
(the id returned by the successful Phase A submission) and the job name
`hpc-proxy-<task.name>-<task.uuid>-main`. -/
theorem main_payload_dependency_and_name (env : Env) (cat : Catalog)
    (registry : Registry) (task : Task)
    (h : (submit_slurm_job_via_rest env cat registry task).job_id ≠ BAD_SLURM_JOB_ID) :
    ∃ pp mp : SubmitPayload,
      get_preliminary_slurm_rest_payload_for_task task = some pp
      ∧ get_main_slurm_rest_payload_for_task cat task
            ((env.submit pp).job_id.getD BAD_SLURM_JOB_ID) = some mp
      ∧ (submit_slurm_job_via_rest env cat registry task).calls = [pp, mp]
      ∧ mp.job.dependency
          = some ("afterok:" ++ toString ((env.submit pp).job_id.getD BAD_SLURM_JOB_ID))
      ∧ mp.job.name = "hpc-proxy-" ++ task.name ++ "-" ++ task.uuid ++ "-main" := by
  obtain ⟨pp, hpp⟩ := prelim_payload_isSome task
  obtain ⟨mp, hmp, hdep, hname⟩ :=
    main_payload_fields cat task ((env.submit pp).job_id.getD BAD_SLURM_JOB_ID)
  refine ⟨pp, mp, hpp, hmp, ?_, hdep, hname⟩
  cases hdup : get_job_metadata_from_monitor_db_by_query registry task.uuid with
  | some r => simp [submit_slurm_job_via_rest, hdup] at h
  | none =>
      by_cases h1 : (env.submit pp).status_code = 200 <;>
        by_cases h2 : (env.submit pp).job_id.getD BAD_SLURM_JOB_ID = BAD_SLURM_JOB_ID <;>
        by_cases h3 : (env.submit mp).status_code = 200 <;>
        by_cases h4 : (env.submit mp).job_id.getD BAD_SLURM_JOB_ID = BAD_SLURM_JOB_ID <;>
        simp only [submit_slurm_job_via_rest, hdup, hpp, hmp, beq_iff_eq, h1, h2, h3, h4]
          at h ⊢ <;>
        simp_all

theorem main_payload_dependency_and_name_witness :
    (submit_slurm_job_via_rest envScenario TASK_METADATA [] taskScenario).job_id
        ≠ BAD_SLURM_JOB_ID
    ∧ ∃ pp mp : SubmitPayload,
        get_preliminary_slurm_rest_payload_for_task taskScenario = some pp
        ∧ get_main_slurm_rest_payload_for_task TASK_METADATA taskScenario
              ((envScenario.submit pp).job_id.getD BAD_SLURM_JOB_ID) = some mp
        ∧ (submit_slurm_job_via_rest envScenario TASK_METADATA [] taskScenario).calls
            = [pp, mp]
        ∧ mp.job.dependency
            = some ("afterok:"
                ++ toString ((envScenario.submit pp).job_id.getD BAD_SLURM_JOB_ID))
        ∧ mp.job.name = "hpc-proxy-" ++ taskScenario.name ++ "-" ++ taskScenario.uuid
            ++ "-main" :=
  ⟨by decide,
   main_payload_dependency_and_name envScenario TASK_METADATA [] taskScenario (by decide)⟩

/-! ## C3 -/

/-- C3: a submission whose `task.uuid` already has a registry record returns a
400 error, issues no SLURM REST call at all, and leaves the registry
unchanged. -/
theorem duplicate_uuid_rejected (env : Env) (cat : Catalog) (registry : Registry)
    (task : Task) (r : JobRecord) (hmem : r ∈ registry)
    (huuid : r.task.uuid = task.uuid) :
    post_submit env cat registry task =
      .ok { status := 400,
            body := .err ("Failed to submit task | " ++ ("Task UUID " ++ task.uuid
                ++ " already exists in monitor database")),
            registry := registry, calls := [] } := by
  have hfind : ∃ rec, get_job_metadata_from_monitor_db_by_query registry task.uuid
      = some rec := by
    have : (registry.find? (fun r => r.task.uuid == task.uuid)).isSome := by
      rw [List.find?_isSome]
      exact ⟨r, hmem, by simp [huuid]⟩
    exact Option.isSome_iff_exists.mp this
  obtain ⟨rec, hrec⟩ := hfind
  unfold post_submit
  rw [is_task_valid_keys]
  simp only [not_true_eq_false, if_false, if_neg]
  unfold submit_slurm_job_via_rest
  rw [hrec]
  rfl

theorem duplicate_uuid_rejected_witness :
    recScenario ∈ [recScenario]
    ∧ recScenario.task.uuid = taskScenario.uuid
    ∧ post_submit envScenario TASK_METADATA [recScenario] taskScenario =
        .ok { status := 400,
              body := .err ("Failed to submit task | " ++ ("Task UUID "
                  ++ taskScenario.uuid ++ " already exists in monitor database")),
              registry := [recScenario], calls := [] } :=
  ⟨List.mem_singleton.mpr rfl, rfl,
   duplicate_uuid_rejected envScenario TASK_METADATA [recScenario] taskScenario
     recScenario (List.mem_singleton.mpr rfl) rfl⟩

/-! ## C2 -/

/-- C2 (counterexample): in the exact scenario of the claim — valid task,
Phase A returns 1001, Phase B returns 1002 — the handler performs a live
status lookup for job 1002 and stores the state SLURM reports (PENDING here),
not UNKNOWN.  The response is 200 `{uuid, slurm_job_id}` as claimed, but the
registry record's state contradicts the claim. -/
theorem submit_records_live_state_not_unknown :
    (post_submit envScenario TASK_METADATA [] taskScenario).map
        (fun p => (p.status, p.body,
          p.registry.map (fun r => (r.slurm_job_id, r.slurm_job_state))))
      = .ok (200, .okSubmit "u1" 1002, [(1002, "PENDING")])
    ∧ "PENDING" ≠ SLURM_STATE_UNKNOWN := by
  exact ⟨rfl, by decide⟩

/-- `get_current_slurm_job_metadata_by_slurm_job_id_via_rest` on a successful
single-job lookup owned by the queried user. -/
theorem get_current_of_lookup (env : Env) (id : Int) (u s : String)
    (h0 : id ≠ 0) (hT : id ≠ SLURM_TEST_JOB_ID) (hu : u ≠ "")
    (hlk : env.job_lookup id u
        = some { status_code := 200, jobs := [{ state_current0 := s, user := u }] })
    (hsK : s ∈ SLURM_STATE_KEYS) :
    get_current_slurm_job_metadata_by_slurm_job_id_via_rest env id u
      = some { username := u, job_id := id, job_state := s } := by
  simp [get_current_slurm_job_metadata_by_slurm_job_id_via_rest, h0, hT, hu, hlk, hsK]

/-- `add_job_to_monitor_db` with a non-UNKNOWN state and no clashing row
appends exactly one record. -/
theorem add_job_nonunknown (env : Env) (registry : Registry) (id : Int)
    (s : String) (task : Task) (u : String)
    (hs : s ≠ SLURM_STATE_UNKNOWN)
    (hid : (registry.find? (fun r => r.slurm_job_id == id)).isNone = true)
    (huu : (registry.find? (fun r => r.task.uuid == task.uuid)).isNone = true) :
    add_job_to_monitor_db env registry id s task u
      = .ok (true, registry ++ [{ slurm_username := u, slurm_job_id := id,
                                  slurm_job_state := s, task := task,
                                  created_at := env.now }]) := by
  simp [add_job_to_monitor_db, hs, hid, huu]

/-- C2 (amended): when both REST submissions succeed AND the post-submit live
status lookup succeeds reporting a recognised, non-terminal state `s`, POST
/submit returns 200 with `{uuid, slurm_job_id}` and the registry gains exactly
one record whose `slurm_job_state` is `s` — the live state, not UNKNOWN.
(If the lookup fails the handler returns 400; if it reports an unrecognised
state the handler raises a TypeError.) -/
theorem submit_success_records_live_state (env : Env) (cat : Catalog) (task : Task)
    (pp mp : SubmitPayload) (pid mid : Int) (s : String)
    (hpp : get_preliminary_slurm_rest_payload_for_task task = some pp)
    (hpresp : env.submit pp = { status_code := 200, job_id := some pid })
    (hpid : pid ≠ BAD_SLURM_JOB_ID)
    (hmp : get_main_slurm_rest_payload_for_task cat task pid = some mp)
    (hmresp : env.submit mp = { status_code := 200, job_id := some mid })
    (hmid : mid ≠ BAD_SLURM_JOB_ID) (hmid0 : mid ≠ 0) (hmidT : mid ≠ SLURM_TEST_JOB_ID)
    (husr : task.username ≠ "")
    (hlk : env.job_lookup mid task.username
        = some { status_code := 200,
                 jobs := [{ state_current0 := s, user := task.username }] })
    (hsK : s ∈ SLURM_STATE_KEYS)
    (hsE : s ∉ SLURM_STATE_END_STATES) :
    post_submit env cat [] task
      = .ok { status := 200, body := .okSubmit task.uuid mid,
              registry := [{ slurm_username := task.username, slurm_job_id := mid,
                             slurm_job_state := s, task := task,
                             created_at := env.now }],
              calls := [pp, mp] } := by
  have hsU : s ≠ SLURM_STATE_UNKNOWN := by
    intro he
    subst he
    exact absurd hsK (by decide)
  have hrun : submit_slurm_job_via_rest env cat [] task
      = { job_id := mid, msg := "Successfully submitted SLURM job via REST",
          calls := [pp, mp] } := by
    simp [submit_slurm_job_via_rest, get_job_metadata_from_monitor_db_by_query,
      hpp, hpresp, hmp, hmresp, hpid, hmid]
  have hcur := get_current_of_lookup env mid task.username s hmid0 hmidT husr hlk hsK
  have hadd := add_job_nonunknown env [] mid s task task.username hsU rfl rfl
  simp [post_submit, monitor_new_slurm_job, is_task_valid_keys, hrun, hmid, hcur,
    hadd, hsE]

theorem submit_success_records_live_state_witness :
    ∃ pp mp : SubmitPayload,
      get_preliminary_slurm_rest_payload_for_task taskScenario = some pp
      ∧ get_main_slurm_rest_payload_for_task TASK_METADATA taskScenario 1001 = some mp
      ∧ post_submit envScenario TASK_METADATA [] taskScenario
          = .ok { status := 200, body := .okSubmit "u1" 1002,
                  registry := [{ slurm_username := "alice", slurm_job_id := 1002,
                                 slurm_job_state := "PENDING", task := taskScenario,
                                 created_at := 0 }],
                  calls := [pp, mp] } :=
  ⟨_, _, rfl, rfl,
   submit_success_records_live_state envScenario TASK_METADATA taskScenario _ _
     1001 1002 "PENDING" rfl rfl (by decide) rfl rfl (by decide) (by decide)
     (by decide) (by decide) rfl (by decide) (by decide)⟩

/-! ## C7 -/

/-- A notifier backend whose TEST transport raises. -/
def envNotifRaisesTest : NotifierEnv := { raises := fun tag => tag == "test" }

/-- A notifier backend where every transport raises. -/
def envAllRaise : NotifierEnv := { raises := fun _ => true }

/-- A params dict with full email, slack and rabbitmq bags. -/
def paramsW : List (String × Option ParamBag) :=
  [("email", some { sender := some "a@b.c", recipient := some "d@e.f",
                    subject := some "s" }),
   ("slack", some { channel := some "general" }),
   ("rabbitmq", some { queue := some "q", exchange := some "",
                       routing_key := some "rk" })]

/-- C7 (counterexample): a failure raised by the TEST notifier escapes the
dispatch loop — the remaining methods (slack here) are never invoked; and an
unknown method tag (a string matching no tag, or any catalog enum member)
makes the factory raise `ValueError` instead of the dispatch returning
false. -/
theorem test_notifier_failure_aborts_dispatch :
    dispatchLoop envNotifRaisesTest paramsW [.ofStr "test", .ofStr "slack"]
        = { exn := some "Exception raised by the TEST notifier", returned := true,
            invoked := ["test"] }
    ∧ dispatchLoop envNotifRaisesTest paramsW [.ofStr "carrier_pigeon"]
        = { exn := some "Unknown notification method!", returned := true, invoked := [] }
    ∧ dispatchLoop envNotifRaisesTest paramsW [.ofEnum .TEST]
        = { exn := some "Unknown notification method!", returned := true,
            invoked := [] } := by
  exact ⟨rfl, rfl, rfl⟩

/-- C7 (amended): for the four transports whose `notify` runs inside a
`try/except` — EMAIL, GMAIL, SLACK and RABBITMQ — a failure raised by any
notifier is contained: every method in the list is still invoked and the
dispatch returns true, whatever the backend failure pattern. -/
theorem wrapped_methods_best_effort (env : NotifierEnv)
    (params : List (String × Option ParamBag)) (eb sb rb : ParamBag)
    (hE : lookupKey params "email" = some (some eb))
    (hEs : eb.sender.isSome = true) (hEr : eb.recipient.isSome = true)
    (hEj : eb.subject.isSome = true)
    (hS : lookupKey params "slack" = some (some sb)) (hSc : sb.channel.isSome = true)
    (hR : lookupKey params "rabbitmq" = some (some rb))
    (hRq : rb.queue.isSome = true) (hRe : rb.exchange.isSome = true)
    (hRr : rb.routing_key.isSome = true)
    (methods : List MethodVal)
    (hms : ∀ m ∈ methods, m = MethodVal.ofStr "email" ∨ m = MethodVal.ofStr "gmail"
        ∨ m = MethodVal.ofStr "slack" ∨ m = MethodVal.ofStr "rabbitmq") :
    dispatchLoop env params methods
      = { exn := none, returned := true,
          invoked := methods.map (fun m => match m with
            | .ofStr s => s
            | .ofEnum mm => mm.value) } := by
  obtain ⟨se, hse⟩ := Option.isSome_iff_exists.mp hEs
  obtain ⟨re, hre⟩ := Option.isSome_iff_exists.mp hEr
  obtain ⟨su, hsu⟩ := Option.isSome_iff_exists.mp hEj
  obtain ⟨ch, hch⟩ := Option.isSome_iff_exists.mp hSc
  obtain ⟨qu, hqu⟩ := Option.isSome_iff_exists.mp hRq
  obtain ⟨ex, hex⟩ := Option.isSome_iff_exists.mp hRe
  obtain ⟨rk, hrk⟩ := Option.isSome_iff_exists.mp hRr
  induction methods with
  | nil => rfl
  | cons m rest ih =>
      have hrest : ∀ x ∈ rest, x = MethodVal.ofStr "email" ∨ x = MethodVal.ofStr "gmail"
          ∨ x = MethodVal.ofStr "slack" ∨ x = MethodVal.ofStr "rabbitmq" :=
        fun x hx => hms x (List.mem_cons_of_mem m hx)
      have hm := hms m (List.mem_cons_self m rest)
      rcases hm with h | h | h | h <;> subst h <;>
        simp [dispatchLoop, create_callback_for_method, MethodVal.pyEq,
          MethodVal.pyFalsy, hE, hS, hR, hse, hre, hsu, hch, hqu, hex, hrk, ih hrest]

theorem wrapped_methods_best_effort_witness :
    dispatchLoop envAllRaise paramsW
        [.ofStr "email", .ofStr "slack", .ofStr "rabbitmq", .ofStr "gmail"]
      = { exn := none, returned := true,
          invoked := ["email", "slack", "rabbitmq", "gmail"] } :=
  wrapped_methods_best_effort envAllRaise paramsW _ _ _ rfl rfl rfl rfl rfl rfl rfl
    rfl rfl rfl [.ofStr "email", .ofStr "slack", .ofStr "rabbitmq", .ofStr "gmail"]
    (by decide)

/-! ## C9 -/

theorem lookupKey_setKey {α : Type} (l : List (String × α)) (k : String) (v : α) :
    lookupKey (setKey l k v) k = some v := by
  induction l with
  | nil => simp [setKey, lookupKey]
  | cons p rest ih =>
      obtain ⟨k0, v0⟩ := p
      by_cases h : k0 == k
      · simp [setKey, lookupKey, h]
      · simp only [setKey, h, Bool.false_eq_true, if_false]
        simpa [lookupKey, List.find?, h] using ih

theorem mergeStep_mono (custom : TaskNotif) (acc : CatalogNotif) (m : String)
    (x : MethodVal) (hx : x ∈ acc.methods) : x ∈ (mergeStep custom acc m).methods := by
  unfold mergeStep
  cases lookupKey custom.params m with
  | none => exact hx
  | some bag =>
      dsimp only
      by_cases h : acc.methods.contains (MethodVal.ofStr m) = true
      · rw [if_pos h]; exact hx
      · rw [if_neg h]; exact List.mem_append_left _ hx

theorem merge_foldl_mono (custom : TaskNotif) (x : MethodVal) :
    ∀ (l : List String) (acc : CatalogNotif), x ∈ acc.methods →
      x ∈ (l.foldl (mergeStep custom) acc).methods := by
  intro l
  induction l with
  | nil => intro acc hx; exact hx
  | cons a t ih => intro acc hx; exact ih _ (mergeStep_mono custom acc a x hx)

theorem merge_adds (custom : TaskNotif) (m : String) (bag : ParamBag)
    (hbag : lookupKey custom.params m = some bag) :
    ∀ (l : List String) (acc : CatalogNotif), m ∈ l →
      MethodVal.ofStr m ∈ (l.foldl (mergeStep custom) acc).methods := by
  intro l
  induction l with
  | nil => intro acc hm; cases hm
  | cons a t ih =>
      intro acc hm
      rcases List.mem_cons.mp hm with h | h
      · subst h
        simp only [List.foldl_cons]
        apply merge_foldl_mono
        unfold mergeStep
        rw [hbag]
        dsimp only
        by_cases hc : acc.methods.contains (MethodVal.ofStr m) = true
        · rw [if_pos hc]; simpa using hc
        · rw [if_neg hc]
          exact List.mem_append_right _ (List.mem_singleton.mpr rfl)
      · exact ih _ h

/-- A task carrying a custom notification method ("gmail" with a param bag)
on top of the catalog entry for `echo_hello_world`. -/
def taskCustomNotif : Task :=
  { taskScenario with
    uuid := "u9",
    notification := some { methods := ["gmail"],
                           params := [("gmail", { sender := some "x@y.z" })] } }

def recCustomNotif : JobRecord :=
  { slurm_username := "alice", slurm_job_id := 777, slurm_job_state := "RUNNING",
    task := taskCustomNotif, created_at := 0 }

/-- C9 (counterexample): one dispatch for a task with a custom notification
method mutates the shared `TASK_METADATA` entry in place — afterwards the
catalog entry for `echo_hello_world` carries the extra "gmail" method, so a
second dispatch for the same catalog name sees a different entry. -/
theorem catalog_mutated_by_dispatch :
    (lookupCatalog (process_job_state_change envNotifRaisesTest TASK_METADATA
          [recCustomNotif] 777 "RUNNING" "COMPLETED").catalog
        "echo_hello_world").map (fun md => md.notification.methods)
      = some [.ofEnum .TEST, .ofEnum .EMAIL, .ofEnum .SLACK, .ofEnum .RABBITMQ,
              .ofStr "gmail"]
    ∧ (lookupCatalog TASK_METADATA "echo_hello_world").map
          (fun md => md.notification.methods)
      = some [.ofEnum .TEST, .ofEnum .EMAIL, .ofEnum .SLACK, .ofEnum .RABBITMQ] := by
  exact ⟨by decide, by decide⟩

/-- C9 (amended): the catalog is not read-only — on a terminal transition for
a record whose task adds a custom method `m` (with a param bag),
`process_job_state_change` writes the merged methods list into the shared
catalog entry, which afterwards contains `m`. -/
theorem merge_mutates_catalog (env : NotifierEnv) (cat : Catalog)
    (registry : Registry) (slurm_job_id : Int) (old_state new_state : String)
    (record : JobRecord) (custom : TaskNotif) (m : String) (bag : ParamBag)
    (task_md : TaskMeta)
    (hterm : new_state ∈ SLURM_STATE_END_STATES)
    (hfind : registry.find? (fun r => r.slurm_job_id == slurm_job_id) = some record)
    (hcat : lookupCatalog cat record.task.name = some task_md)
    (hcustom : record.task.notification = some custom)
    (hm : m ∈ custom.methods)
    (hbag : lookupKey custom.params m = some bag) :
    ∃ task_md',
      lookupCatalog (process_job_state_change env cat registry slurm_job_id
          old_state new_state).catalog record.task.name = some task_md'
      ∧ MethodVal.ofStr m ∈ task_md'.notification.methods := by
  refine ⟨{ task_md with
            notification := merge_task_notification task_md.notification custom },
          ?_, ?_⟩
  · simp only [process_job_state_change, hterm, hfind, hcat, hcustom, not_true_eq_false,
      List.elem_eq_mem, decide_eq_true_eq, if_false]
    simp only [lookupCatalog] at *
    simpa [hterm] using lookupKey_setKey cat record.task.name
      { task_md with notification := merge_task_notification task_md.notification custom }
  · exact merge_adds custom m bag hbag custom.methods task_md.notification hm

theorem merge_mutates_catalog_witness :
    ∃ task_md',
      lookupCatalog (process_job_state_change envNotifRaisesTest TASK_METADATA
          [recCustomNotif] 777 "RUNNING" "COMPLETED").catalog
          recCustomNotif.task.name = some task_md'
      ∧ MethodVal.ofStr "gmail" ∈ task_md'.notification.methods :=
  merge_mutates_catalog envNotifRaisesTest TASK_METADATA [recCustomNotif] 777
    "RUNNING" "COMPLETED" recCustomNotif
    { methods := ["gmail"], params := [("gmail", { sender := some "x@y.z" })] }
    "gmail" { sender := some "x@y.z" } echoHelloWorldMeta (by decide) rfl rfl rfl
    (by decide) rfl

/-! ## C5 -/

/-- A record in a terminal state is `continue`d by the Poller loop before any
lookup, whether or not it is inside the scan window. -/
theorem pollStep_skip_of_terminal (env : Env) (r : JobRecord)
    (h : r.slurm_job_state ∈ SLURM_STATE_END_STATES) : pollStep env r = .skip := by
  simp [pollStep, h]

/-- One Poller tick keeps every terminal record unchanged, at its position. -/
theorem pollGo_get_terminal (env : Env) :
    ∀ (rs : Registry) (i : Nat) (r : JobRecord), rs[i]? = some r →
      r.slurm_job_state ∈ SLURM_STATE_END_STATES →
      (pollGo env rs).registry[i]? = some r := by
  intro rs
  induction rs with
  | nil => intro i r h _; simp at h
  | cons r0 rest ih =>
      intro i r h hterm
      cases i with
      | zero =>
          have h0 : r0 = r := by simpa using h
          subst h0
          simp [pollGo, pollStep_skip_of_terminal env r0 hterm]
      | succ n =>
          have h' : rest[n]? = some r := by simpa using h
          cases hstep : pollStep env r0 with
          | skip => simpa [pollGo, hstep] using ih n r h' hterm
          | unchanged => simpa [pollGo, hstep] using ih n r h' hterm
          | updated s => simpa [pollGo, hstep] using ih n r h' hterm
          | crashed => simpa [pollGo, hstep] using h'

/-- One Poller tick never changes which job id sits at which position. -/
theorem pollGo_map_id (env : Env) :
    ∀ rs : Registry, (pollGo env rs).registry.map JobRecord.slurm_job_id
      = rs.map JobRecord.slurm_job_id := by
  intro rs
  induction rs with
  | nil => rfl
  | cons r0 rest ih =>
      cases hstep : pollStep env r0 with
      | skip => simp [pollGo, hstep, ih]
      | unchanged => simp [pollGo, hstep, ih]
      | updated s => simp [pollGo, hstep, ih]
      | crashed => simp [pollGo, hstep]

/-- Every id the Poller looks up belongs to some scanned record that was not
in a terminal state. -/
theorem pollGo_lookups_from (env : Env) :
    ∀ (rs : Registry) (id : Int), id ∈ (pollGo env rs).lookups →
      ∃ s ∈ rs, s.slurm_job_id = id
        ∧ s.slurm_job_state ∉ SLURM_STATE_END_STATES := by
  intro rs
  induction rs with
  | nil => intro id h; simp [pollGo] at h
  | cons r0 rest ih =>
      intro id h
      have hnt : pollStep env r0 ≠ StepOut.skip →
          r0.slurm_job_state ∉ SLURM_STATE_END_STATES := by
        intro hne hterm
        exact hne (pollStep_skip_of_terminal env r0 hterm)
      cases hstep : pollStep env r0 with
      | skip =>
          rw [pollGo, hstep] at h
          obtain ⟨s, hs, h1, h2⟩ := ih id h
          exact ⟨s, List.mem_cons_of_mem _ hs, h1, h2⟩
      | unchanged =>
          rw [pollGo, hstep] at h
          rcases List.mem_cons.mp h with h | h
          · exact ⟨r0, List.mem_cons_self _ _, h.symm, hnt (by simp [hstep])⟩
          · obtain ⟨s, hs, h1, h2⟩ := ih id h
            exact ⟨s, List.mem_cons_of_mem _ hs, h1, h2⟩
      | updated s0 =>
          rw [pollGo, hstep] at h
          rcases List.mem_cons.mp h with h | h
          · exact ⟨r0, List.mem_cons_self _ _, h.symm, hnt (by simp [hstep])⟩
          · obtain ⟨s, hs, h1, h2⟩ := ih id h
            exact ⟨s, List.mem_cons_of_mem _ hs, h1, h2⟩
      | crashed =>
          rw [pollGo, hstep] at h
          have h0 : id = r0.slurm_job_id := by simpa using h
          exact ⟨r0, List.mem_cons_self _ _, h0.symm, hnt (by simp [hstep])⟩

/-- C5: once a registry record is in a terminal state, no later Poller tick
issues a live SLURM lookup for it, and its row (in particular its state
field) is never changed by the Poller again — across any number of ticks,
whatever the SLURM backend reports meanwhile.  (Registry ids are pairwise
distinct, the source's uniqueness invariant.) -/
theorem poller_freezes_terminal_records (envs : Nat → Env) (rs : Registry)
    (hnodup : (rs.map JobRecord.slurm_job_id).Nodup) (i : Nat) (r : JobRecord)
    (hget : rs[i]? = some r)
    (hterm : r.slurm_job_state ∈ SLURM_STATE_END_STATES) (n : Nat) :
    (poll_iter envs n rs)[i]? = some r
    ∧ r.slurm_job_id ∉ (poll_slurm_jobs (envs n) (poll_iter envs n rs)).lookups := by
  have inv : ∀ k, (poll_iter envs k rs)[i]? = some r
      ∧ (poll_iter envs k rs).map JobRecord.slurm_job_id
        = rs.map JobRecord.slurm_job_id := by
    intro k
    induction k with
    | zero => exact ⟨hget, rfl⟩
    | succ k ihk =>
        obtain ⟨h1, h2⟩ := ihk
        refine ⟨?_, ?_⟩
        · exact pollGo_get_terminal (envs k) _ i r h1 hterm
        · show (pollGo (envs k) (poll_iter envs k rs)).registry.map _ = _
          rw [pollGo_map_id (envs k) (poll_iter envs k rs), h2]
  obtain ⟨h1, h2⟩ := inv n
  refine ⟨h1, ?_⟩
  intro hmem
  obtain ⟨s, hs, hsid, hsnt⟩ :=
    pollGo_lookups_from (envs n) (poll_iter envs n rs) r.slurm_job_id hmem
  obtain ⟨j, hjlt, hj⟩ := List.getElem_of_mem hs
  have hnodup' : ((poll_iter envs n rs).map JobRecord.slurm_job_id).Nodup := by
    rw [h2]; exact hnodup
  have hilt : i < (poll_iter envs n rs).length :=
    (List.getElem?_eq_some.mp h1).1
  have hmi : ((poll_iter envs n rs).map JobRecord.slurm_job_id)[i]?
      = some r.slurm_job_id := by
    rw [List.getElem?_map, h1]; rfl
  have hmj : ((poll_iter envs n rs).map JobRecord.slurm_job_id)[j]?
      = some r.slurm_job_id := by
    rw [List.getElem?_map, List.getElem?_eq_getElem hjlt, hj]
    simp [hsid]
  have hij : i = j := by
    refine List.getElem?_inj ?_ hnodup' (hmi.trans hmj.symm)
    simpa using hilt
  have hrs : r = s := by
    have : some r = some s := by
      rw [← h1, hij, List.getElem?_eq_getElem hjlt, hj]
    exact Option.some.inj this
  exact hsnt (hrs ▸ hterm)

/-- A registry row already in a terminal state. -/
def recTerminal : JobRecord :=
  { slurm_username := "alice", slurm_job_id := 1002, slurm_job_state := "COMPLETED",
    task := taskScenario, created_at := 0 }

theorem poller_freezes_terminal_records_witness :
    (poll_iter (fun _ => envScenario) 1 [recTerminal])[0]? = some recTerminal
    ∧ recTerminal.slurm_job_id ∉
        (poll_slurm_jobs envScenario
          (poll_iter (fun _ => envScenario) 1 [recTerminal])).lookups :=
  poller_freezes_terminal_records (fun _ => envScenario) [recTerminal] (by decide)
    0 recTerminal rfl (by decide) 1

end SlurmProxy
